import Mathlib

/-!
Verification of the IMAP session wrapper and batch-fetch orchestrator of the
mail-api repository (`app/services/imap_client.py` and the batching loop of
`app/main.py`), via a shallow embedding.

The embedding models:
* Python string helpers (`str.split(sep)`, `bytes.split()`, `','.join`) as
  executable Lean functions over `List Char` / `String`;
* the batching loop of `get_emails` (`main.py`) as a fold over the index
  list produced by `range(0, len(uids), batch_size)`;
* the `IMAP4_Client` class as explicit state passing: a `ClientState` holds
  the nullable connection handle (`self.__imap`), a `ServerBehavior` is the
  response oracle of the underlying `imaplib` connection and network, and
  every method returns an `Outcome` carrying the Python return value or the
  raised exception, the post-state, and the list of wire commands attempted.
-/

/-- The parsed message object produced by `email.message_from_bytes`.  The
claims never inspect message structure, so the parse is modelled as an opaque
wrapper around the raw fetched bytes. -/
structure EmailMessage where
  raw : String
deriving DecidableEq, Repr

/-- `email.message_from_bytes(message, policy=policy.default)`: opaque parse. -/
def message_from_bytes (s : String) : EmailMessage := ⟨s⟩

/-- `lhs.isPrefixOf rhs` on character lists, executable and kernel-reducible. -/
def charPrefix : List Char → List Char → Bool
  | [], _ => true
  | _ :: _, [] => false
  | a :: as, b :: bs => a = b && charPrefix as bs

/-- Worker for `pySplit`: scans `s`, splitting at each occurrence of the
(non-empty) separator `sep`.  `cur` is the reversed current field; `fuel`
bounds the recursion (a full pass consumes at least one character per step). -/
def pySplitGo (sep : List Char) : Nat → List Char → List Char → List (List Char)
  | 0, cur, _ => [cur.reverse]
  | _ + 1, cur, [] => [cur.reverse]
  | fuel + 1, cur, c :: rest =>
    if charPrefix sep (c :: rest) && !sep.isEmpty then
      cur.reverse :: pySplitGo sep fuel [] ((c :: rest).drop sep.length)
    else
      pySplitGo sep fuel (c :: cur) rest

/-- Python `s.split(sep)` for a non-empty separator `sep`: split on each
non-overlapping occurrence of `sep`, keeping empty fields. -/
def pySplit (sep s : String) : List String :=
  (pySplitGo sep.data (s.data.length + 1) [] s.data).map List.asString

/-- Python `bytes.split()` (no separator): whitespace-delimited tokens with
empty fields discarded.  The search responses produced by `imaplib` separate
UIDs with single spaces, so splitting on `' '` and dropping empties models it. -/
def pySplitWs (s : String) : List String :=
  (pySplit " " s).filter (fun t => t != "")

/-- Python `','.join(batch_uids)` (the UIDs are already decoded to strings). -/
def joinComma : List String → String
  | [] => ""
  | [s] => s
  | s :: rest => s ++ "," ++ joinComma rest

/-- Python `range(0, stop, step)` for `step ≥ 1`: the list
`[0, step, 2*step, ...]` of all multiples of `step` below `stop`,
of length `⌈stop / step⌉`. -/
def pyRangeGo (step : Nat) : Nat → Nat → List Nat
  | 0, _ => []
  | k + 1, cur => cur :: pyRangeGo step k (cur + step)

/-- `range(0, stop, step)` as used by `get_emails` in `main.py`. -/
def pyRange (stop step : Nat) : List Nat :=
  pyRangeGo step ((stop + step - 1) / step) 0

/-- The window `emails_uids[index : index + batch_size]` taken at each loop
iteration of `get_emails` (Python slice = drop then take). -/
def batchSlices {α : Type} (uids : List α) (batch_size : Nat) : List (List α) :=
  (pyRange uids.length batch_size).map (fun index => (uids.drop index).take batch_size)

/-- The batching loop of `get_emails` (`main.py` lines 39-46), instrumented:
the first component accumulates `emails.extend(batch_emails)`, the second
records the argument string passed to each `client.fetch_emails` call, in call
order.  `fetch` stands for `client.fetch_emails`'s per-call return value. -/
def get_emails_batch (fetch : String → List EmailMessage)
    (emails_uids : List String) (batch_size : Nat) :
    List EmailMessage × List String :=
  (pyRange emails_uids.length batch_size).foldl
    (fun acc index =>
      (acc.1 ++ fetch (joinComma ((emails_uids.drop index).take batch_size)),
       acc.2 ++ [joinComma ((emails_uids.drop index).take batch_size)]))
    ([], [])

/-- A Python exception raised by the underlying `imaplib`/socket layer.
`imapErr` is `imaplib.IMAP4.error` (including `IMAP4.abort`, its subclass, in
which `imaplib` wraps socket errors occurring during a command);
`otherExc` is any other exception (e.g. `socket.gaierror` or `ssl.SSLError`
raised while the `IMAP4_SSL` constructor opens the TCP/TLS connection). -/
inductive PyExc where
  | imapErr (msg : String)
  | otherExc (msg : String)
deriving DecidableEq, Repr

/-- `str(e)` of the exception, as interpolated into the wrapper's messages. -/
def PyExc.msg : PyExc → String
  | .imapErr m => m
  | .otherExc m => m

/-- An exception surfacing out of an `IMAP4_Client` method:
either one of the wrapper's own `ConnectionError` / `RuntimeError` raises, or
an underlying exception the wrapper does not catch, propagating unchanged. -/
inductive PyErr where
  | connectionError (msg : String)
  | runtimeError (msg : String)
  | uncaught (e : PyExc)
deriving DecidableEq, Repr

/-- Response oracle for the underlying `imaplib` connection and network: what
each attempted wire command returns or raises.  `none` means the call returns
normally; `some e` means it raises `e`.  The `...Resp` fields return the
`(status, data)` pair of the corresponding `imaplib` method, or raise.
`noopOk` models `IMAP4.noop()`, which either succeeds or raises
`IMAP4.error` (socket failures during a command are wrapped by `imaplib` in
`IMAP4.abort`, a subclass of `IMAP4.error`). -/
structure ServerBehavior where
  noopOk : Bool
  newConnRaises : Option PyExc
  loginRaises : String → String → Option PyExc
  logoutRaises : Option PyExc
  selectRaises : String → Option PyExc
  searchResp : String → Except PyExc (String × List String)
  fetchResp : String → Except PyExc (String × List (String × String))
  storeRaises : String → String → String → Option PyExc
  expungeRaises : Option PyExc
  listResp : String → String → Except PyExc (String × List String)
  renameRaises : String → String → Option PyExc
  createRaises : String → Option PyExc
  deleteRaises : String → Option PyExc

/-- The `imaplib.IMAP4_SSL` object held in `self.__imap`.  `loggedOut` mirrors
`imaplib`'s state machine: after `logout()` the object is in the `LOGOUT`
state and every further command (including `noop`) raises `IMAP4.error`
before touching the network. -/
structure Conn where
  loggedOut : Bool
deriving DecidableEq, Repr

/-- The `IMAP4_Client` instance state: constructor configuration plus the
nullable connection handle `self.__imap` (`ssl_context` and `timeout` are
omitted: they only parametrize the socket and are observationally inert in
the model). -/
structure ClientState where
  host : String
  port : Nat
  imap : Option Conn
deriving DecidableEq, Repr

/-- A wire command attempted on the network.  `copy` is the real IMAP
`COPY`/`MOVE` command of a genuine cross-mailbox move; no method of the
wrapper ever issues it, which is what claim C6 is about. -/
inductive NetOp where
  | sslConnect (host : String) (port : Nat)
  | login (account password : String)
  | logout
  | noop
  | selectCmd (mailbox : String)
  | searchCmd (criteria : String)
  | fetchCmd (uids parts : String)
  | store (uids flagsOp flags : String)
  | expunge
  | listCmd (directory pattern : String)
  | copy (uids mailbox : String)
  | renameCmd (oldMailbox newMailbox : String)
  | createCmd (mailbox : String)
  | deleteCmd (mailbox : String)
deriving DecidableEq, Repr

deriving instance DecidableEq for Except

/-- Result of one `IMAP4_Client` method call: the returned value or raised
exception, the post-state of the instance, and the wire commands attempted in
order. -/
structure Outcome (α : Type) where
  result : Except PyErr α
  state : ClientState
  trace : List NetOp
deriving DecidableEq, Repr

/-- `is_logged` (`imap_client.py` lines 72-87): `False` when `self.__imap` is
`None`; otherwise sends `NOOP` and returns `True` on success, `False` when
the probe raises `IMAP4.error`.  Returns the boolean together with the wire
commands attempted (the probe is only attempted when a non-`LOGOUT` handle
exists; in the `LOGOUT` state `imaplib` raises before writing to the socket). -/
def is_logged (beh : ServerBehavior) (st : ClientState) : Bool × List NetOp :=
  match st.imap with
  | none => (false, [])
  | some c =>
    if c.loggedOut then (false, [])
    else if beh.noopOk then (true, [.noop])
    else (false, [.noop])

/-- `connect` (`imap_client.py` lines 38-56).  Returns immediately when
`is_logged()`; otherwise constructs `IMAP4_SSL(host, port, ...)` (assigning
`self.__imap` on success of the constructor), then calls `login`.  Only
`IMAP4.error` (= `IMAP4_SSL.error`) is caught and re-raised as
`ConnectionError`; any other exception propagates unchanged. -/
def connect (beh : ServerBehavior) (st : ClientState)
    (account password : String) : Outcome Unit :=
  match is_logged beh st with
  | (true, t) => ⟨.ok (), st, t⟩
  | (false, t) =>
    match beh.newConnRaises with
    | some (.imapErr m) =>
      ⟨.error (.connectionError ("Failed to connect to IMAP server: " ++ m)), st,
       t ++ [.sslConnect st.host st.port]⟩
    | some (.otherExc m) =>
      ⟨.error (.uncaught (.otherExc m)), st, t ++ [.sslConnect st.host st.port]⟩
    | none =>
      let st2 : ClientState := { st with imap := some ⟨false⟩ }
      match beh.loginRaises account password with
      | some (.imapErr m) =>
        ⟨.error (.connectionError ("Failed to connect to IMAP server: " ++ m)), st2,
         t ++ [.sslConnect st.host st.port, .login account password]⟩
      | some (.otherExc m) =>
        ⟨.error (.uncaught (.otherExc m)), st2,
         t ++ [.sslConnect st.host st.port, .login account password]⟩
      | none =>
        ⟨.ok (), st2, t ++ [.sslConnect st.host st.port, .login account password]⟩

/-- `disconnect` (`imap_client.py` lines 58-70).  No-op when not
`is_logged()`; otherwise calls `self.__imap.logout()` — which moves the
handle to the `LOGOUT` state before anything can fail — and wraps any raised
exception in `RuntimeError`.  Note the method never assigns
`self.__imap = None`. -/
def disconnect (beh : ServerBehavior) (st : ClientState) : Outcome Unit :=
  match is_logged beh st with
  | (false, t) => ⟨.ok (), st, t⟩
  | (true, t) =>
    let st2 : ClientState := { st with imap := some ⟨true⟩ }
    match beh.logoutRaises with
    | none => ⟨.ok (), st2, t ++ [.logout]⟩
    | some e => ⟨.error (.runtimeError ("Error closing connection: " ++ e.msg)), st2,
                 t ++ [.logout]⟩

/-- Python `data[::2]`: every second element starting at index 0. -/
def everyOther {α : Type} : List α → List α
  | [] => []
  | [a] => [a]
  | a :: _ :: rest => a :: everyOther rest

/-- One entry of the `list()` comprehension
`mailbox.decode().split(' "/" ')[1]`: `none` models the `IndexError` raised
when the quoted-delimiter separator does not occur in the line. -/
def parseListLine (line : String) : Option String :=
  (pySplit " \"/\" " line).get? 1

/-- `select_mailbox` (`imap_client.py` lines 89-100). -/
def select_mailbox (beh : ServerBehavior) (st : ClientState)
    (mailbox : String) : Outcome Unit :=
  match is_logged beh st with
  | (false, t) => ⟨.error (.connectionError "Not connected to IMAP server"), st, t⟩
  | (true, t) =>
    match beh.selectRaises mailbox with
    | none => ⟨.ok (), st, t ++ [.selectCmd mailbox]⟩
    | some e =>
      ⟨.error (.runtimeError ("Error selecting mailbox " ++ mailbox ++ ": " ++ e.msg)), st,
       t ++ [.selectCmd mailbox]⟩

/-- `search_emails` (`imap_client.py` lines 102-118): on an `"OK"` status the
first data line is split into whitespace-separated UIDs; any non-`"OK"` status
yields `[]`; an exception (including the `IndexError` of `data[0]` on empty
data) is wrapped in `RuntimeError`. -/
def search_emails (beh : ServerBehavior) (st : ClientState)
    (criteria : String) : Outcome (List String) :=
  match is_logged beh st with
  | (false, t) => ⟨.error (.connectionError "Not connected to IMAP server"), st, t⟩
  | (true, t) =>
    match beh.searchResp criteria with
    | .error e =>
      ⟨.error (.runtimeError ("Error searching emails: " ++ e.msg)), st,
       t ++ [.searchCmd criteria]⟩
    | .ok (status, data) =>
      if status = "OK" then
        match data.head? with
        | some d0 => ⟨.ok (pySplitWs d0), st, t ++ [.searchCmd criteria]⟩
        | none =>
          ⟨.error (.runtimeError "Error searching emails: list index out of range"), st,
           t ++ [.searchCmd criteria]⟩
      else ⟨.ok [], st, t ++ [.searchCmd criteria]⟩

/-- `fetch_emails` (`imap_client.py` lines 120-137): fetches `(RFC822)` for the
comma-joined UID string; on `"OK"` parses the second component of every even-
indexed data entry (`data[::2]`); any non-`"OK"` status yields `[]`. -/
def fetch_emails (beh : ServerBehavior) (st : ClientState)
    (uids : String) : Outcome (List EmailMessage) :=
  match is_logged beh st with
  | (false, t) => ⟨.error (.connectionError "Not connected to IMAP server"), st, t⟩
  | (true, t) =>
    match beh.fetchResp uids with
    | .error e =>
      ⟨.error (.runtimeError ("Error fetching email UIDs " ++ uids ++ ": " ++ e.msg)), st,
       t ++ [.fetchCmd uids "(RFC822)"]⟩
    | .ok (status, data) =>
      if status = "OK" then
        ⟨.ok ((everyOther data).map (fun p => message_from_bytes p.2)), st,
         t ++ [.fetchCmd uids "(RFC822)"]⟩
      else ⟨.ok [], st, t ++ [.fetchCmd uids "(RFC822)"]⟩

/-- `delete_emails` (`imap_client.py` lines 139-155): `store(uids, '+FLAGS',
'\\Deleted')` then `expunge()`; any exception becomes `RuntimeError` (with the
source's copy-pasted "Error retrieving mailboxes" message). -/
def delete_emails (beh : ServerBehavior) (st : ClientState)
    (messages_uid : String) : Outcome Unit :=
  match is_logged beh st with
  | (false, t) => ⟨.error (.connectionError "Not connected to IMAP server"), st, t⟩
  | (true, t) =>
    match beh.storeRaises messages_uid "+FLAGS" "\\Deleted" with
    | some e =>
      ⟨.error (.runtimeError ("Error retrieving mailboxes: " ++ e.msg)), st,
       t ++ [.store messages_uid "+FLAGS" "\\Deleted"]⟩
    | none =>
      match beh.expungeRaises with
      | some e =>
        ⟨.error (.runtimeError ("Error retrieving mailboxes: " ++ e.msg)), st,
         t ++ [.store messages_uid "+FLAGS" "\\Deleted", .expunge]⟩
      | none => ⟨.ok (), st, t ++ [.store messages_uid "+FLAGS" "\\Deleted", .expunge]⟩

/-- `move_emails` (`imap_client.py` lines 157-171): `store(uids, '+FLAGS',
f'\\\x7bmailbox\x7d')` then `expunge()` — the target mailbox name is spliced
into a flag literal; no `COPY`/`MOVE` wire command is ever issued. -/
def move_emails (beh : ServerBehavior) (st : ClientState)
    (messages_uid mailbox : String) : Outcome Unit :=
  match is_logged beh st with
  | (false, t) => ⟨.error (.connectionError "Not connected to IMAP server"), st, t⟩
  | (true, t) =>
    match beh.storeRaises messages_uid "+FLAGS" ("\\" ++ mailbox) with
    | some e =>
      ⟨.error (.runtimeError ("Error retrieving mailboxes: " ++ e.msg)), st,
       t ++ [.store messages_uid "+FLAGS" ("\\" ++ mailbox)]⟩
    | none =>
      match beh.expungeRaises with
      | some e =>
        ⟨.error (.runtimeError ("Error retrieving mailboxes: " ++ e.msg)), st,
         t ++ [.store messages_uid "+FLAGS" ("\\" ++ mailbox), .expunge]⟩
      | none =>
        ⟨.ok (), st, t ++ [.store messages_uid "+FLAGS" ("\\" ++ mailbox), .expunge]⟩

/-- `list_mailboxes` (`imap_client.py` lines 173-193): on `"OK"` maps
`line.decode().split(' "/" ')[1]` over the data lines (an `IndexError` on any
line aborts the comprehension and is wrapped in `RuntimeError`); any
non-`"OK"` status yields `[]`. -/
def list_mailboxes (beh : ServerBehavior) (st : ClientState)
    (directory pattern : String) : Outcome (List String) :=
  match is_logged beh st with
  | (false, t) => ⟨.error (.connectionError "Not connected to IMAP server"), st, t⟩
  | (true, t) =>
    match beh.listResp directory pattern with
    | .error e =>
      ⟨.error (.runtimeError ("Error retrieving mailboxes: " ++ e.msg)), st,
       t ++ [.listCmd directory pattern]⟩
    | .ok (status, data) =>
      if status = "OK" then
        match data.mapM parseListLine with
        | some names => ⟨.ok names, st, t ++ [.listCmd directory pattern]⟩
        | none =>
          ⟨.error (.runtimeError "Error retrieving mailboxes: list index out of range"), st,
           t ++ [.listCmd directory pattern]⟩
      else ⟨.ok [], st, t ++ [.listCmd directory pattern]⟩

/-- `rename_mailbox` (`imap_client.py` lines 195-206). -/
def rename_mailbox (beh : ServerBehavior) (st : ClientState)
    (old_mailbox new_mailbox : String) : Outcome Unit :=
  match is_logged beh st with
  | (false, t) => ⟨.error (.connectionError "Not connected to IMAP server"), st, t⟩
  | (true, t) =>
    match beh.renameRaises old_mailbox new_mailbox with
    | none => ⟨.ok (), st, t ++ [.renameCmd old_mailbox new_mailbox]⟩
    | some e =>
      ⟨.error (.runtimeError ("Error retrieving mailboxes: " ++ e.msg)), st,
       t ++ [.renameCmd old_mailbox new_mailbox]⟩

/-- `new_mailbox` (`imap_client.py` lines 208-219). -/
def new_mailbox (beh : ServerBehavior) (st : ClientState)
    (mailbox : String) : Outcome Unit :=
  match is_logged beh st with
  | (false, t) => ⟨.error (.connectionError "Not connected to IMAP server"), st, t⟩
  | (true, t) =>
    match beh.createRaises mailbox with
    | none => ⟨.ok (), st, t ++ [.createCmd mailbox]⟩
    | some e =>
      ⟨.error (.runtimeError ("Error retrieving mailboxes: " ++ e.msg)), st,
       t ++ [.createCmd mailbox]⟩

/-- `delete_mailbox` (`imap_client.py` lines 221-232). -/
def delete_mailbox (beh : ServerBehavior) (st : ClientState)
    (mailbox : String) : Outcome Unit :=
  match is_logged beh st with
  | (false, t) => ⟨.error (.connectionError "Not connected to IMAP server"), st, t⟩
  | (true, t) =>
    match beh.deleteRaises mailbox with
    | none => ⟨.ok (), st, t ++ [.deleteCmd mailbox]⟩
    | some e =>
      ⟨.error (.runtimeError ("Error retrieving mailboxes: " ++ e.msg)), st,
       t ++ [.deleteCmd mailbox]⟩

/-- Boolean discriminator: does the call surface a `ConnectionError`? -/
def resultIsConnectionError {α : Type} (o : Outcome α) : Bool :=
  match o.result with
  | .error (.connectionError _) => true
  | _ => false

/-- A fully cooperative server and network: every command succeeds, search
finds UIDs `1 2 3`, fetch returns one message plus the closing `b')'` line,
and `list` reports the `INBOX` and `Sent` mailboxes with delimiter `"/"`. -/
def okBehavior : ServerBehavior where
  noopOk := true
  newConnRaises := none
  loginRaises := fun _ _ => none
  logoutRaises := none
  selectRaises := fun _ => none
  searchResp := fun _ => .ok ("OK", ["1 2 3"])
  fetchResp := fun _ => .ok ("OK", [("1 (RFC822 ...)", "raw message 1"), (")", ")")])
  storeRaises := fun _ _ _ => none
  expungeRaises := none
  listResp := fun _ _ =>
    .ok ("OK", ["(\\HasNoChildren) \"/\" \"INBOX\"", "(\\HasNoChildren) \"/\" \"Sent\""])
  renameRaises := fun _ _ => none
  createRaises := fun _ => none
  deleteRaises := fun _ => none

/-- Like `okBehavior`, but the connection is broken: the `NOOP` health probe
raises `IMAP4.abort` (an `IMAP4.error`) after being attempted on the wire. -/
def badNoopBehavior : ServerBehavior :=
  { okBehavior with noopOk := false }

/-- Like `okBehavior`, but DNS resolution fails inside the `IMAP4_SSL`
constructor with `socket.gaierror` — an `OSError`, not an `IMAP4.error`. -/
def dnsFailBehavior : ServerBehavior :=
  { okBehavior with newConnRaises := some (.otherExc "gaierror: Name or service not known") }

/-- Like `okBehavior`, but `login` is rejected by the server with
`IMAP4.error`. -/
def loginFailBehavior : ServerBehavior :=
  { okBehavior with loginRaises := fun _ _ => some (.imapErr "LOGIN failed") }

/-- Like `okBehavior`, but search/fetch/list all report a clean non-`"OK"`
status (no exception raised). -/
def noStatusBehavior : ServerBehavior :=
  { okBehavior with
      searchResp := fun _ => .ok ("NO", [])
      fetchResp := fun _ => .ok ("NO", [])
      listResp := fun _ _ => .ok ("NO", []) }

/-- A session holding a live, authenticated connection handle. -/
def authSt : ClientState := ⟨"imap.example.com", 993, some ⟨false⟩⟩

/-- A freshly constructed session: `self.__imap is None`. -/
def freshSt : ClientState := ⟨"imap.example.com", 993, none⟩

theorem pyRangeGo_shift (step : Nat) :
    ∀ (k cur d : Nat), pyRangeGo step k (cur + d) = (pyRangeGo step k cur).map (· + d) := by
  intro k
  induction k with
  | zero => intro cur d; rfl
  | succ k ih =>
    intro cur d
    simp only [pyRangeGo, List.map_cons]
    have h : cur + d + step = cur + step + d := by omega
    rw [h, ih (cur + step) d]

theorem pyRange_zero (b : Nat) (hb : 1 ≤ b) : pyRange 0 b = [] := by
  unfold pyRange
  have h : (0 + b - 1) / b = 0 := Nat.div_eq_of_lt (by omega)
  rw [h]
  rfl

theorem pyRange_pos (n b : Nat) (hb : 1 ≤ b) (hn : 1 ≤ n) :
    pyRange n b = 0 :: (pyRange (n - b) b).map (· + b) := by
  unfold pyRange
  have hk : (n + b - 1) / b = (n - 1) / b + 1 := by
    have h1 : n + b - 1 = (n - 1) + b := by omega
    rw [h1, Nat.add_div_right _ (by omega)]
  have hk2 : (n - b + b - 1) / b = (n - 1) / b := by
    rcases Nat.le_total n b with h | h
    · have h1 : n - b = 0 := by omega
      rw [h1]
      rw [Nat.div_eq_of_lt (by omega), Nat.div_eq_of_lt (by omega)]
    · congr 1
      omega
  rw [hk, hk2]
  simp only [pyRangeGo]
  rw [pyRangeGo_shift b ((n - 1) / b) 0 b]

theorem batchSlices_nil {α : Type} (b : Nat) (hb : 1 ≤ b) :
    batchSlices ([] : List α) b = [] := by
  unfold batchSlices
  rw [List.length_nil, pyRange_zero b hb]
  rfl

theorem batchSlices_cons {α : Type} (b : Nat) (hb : 1 ≤ b) (uids : List α)
    (h : uids ≠ []) :
    batchSlices uids b = uids.take b :: batchSlices (uids.drop b) b := by
  unfold batchSlices
  have hn : 1 ≤ uids.length := List.length_pos.mpr h
  rw [pyRange_pos uids.length b hb hn, List.length_drop]
  simp only [List.map_cons, List.drop_zero, List.map_map]
  congr 1
  apply List.map_congr_left
  intro i _
  simp only [Function.comp_apply]
  rw [List.drop_drop, Nat.add_comm i b]

theorem batchSlices_flatten {α : Type} (b : Nat) (hb : 1 ≤ b) :
    ∀ (n : Nat) (uids : List α), uids.length ≤ n →
      (batchSlices uids b).flatten = uids := by
  intro n
  induction n with
  | zero =>
    intro uids h
    have : uids = [] := List.eq_nil_of_length_eq_zero (by omega)
    subst this
    rw [batchSlices_nil b hb]
    rfl
  | succ n ih =>
    intro uids h
    by_cases huids : uids = []
    · subst huids
      rw [batchSlices_nil b hb]
      rfl
    · rw [batchSlices_cons b hb uids huids, List.flatten_cons]
      rw [ih (uids.drop b) (by rw [List.length_drop]; omega)]
      exact List.take_append_drop b uids

theorem batchSlices_window_le {α : Type} (b : Nat) (hb : 1 ≤ b) :
    ∀ (n : Nat) (uids : List α), uids.length ≤ n →
      ∀ w ∈ batchSlices uids b, w.length ≤ b ∧ w ≠ [] := by
  intro n
  induction n with
  | zero =>
    intro uids h w hw
    have : uids = [] := List.eq_nil_of_length_eq_zero (by omega)
    subst this
    rw [batchSlices_nil b hb] at hw
    cases hw
  | succ n ih =>
    intro uids h w hw
    by_cases huids : uids = []
    · subst huids
      rw [batchSlices_nil b hb] at hw
      cases hw
    · rw [batchSlices_cons b hb uids huids] at hw
      rcases List.mem_cons.mp hw with rfl | hw2
      · refine ⟨List.length_take_le b uids, ?_⟩
        intro hnil
        have h0 : (uids.take b).length = 0 := by rw [hnil]; rfl
        rw [List.length_take] at h0
        have hpos : 0 < uids.length := List.length_pos.mpr huids
        omega
      · exact ih (uids.drop b) (by rw [List.length_drop]; omega) w hw2

theorem batchSlices_dropLast_full {α : Type} (b : Nat) (hb : 1 ≤ b) :
    ∀ (n : Nat) (uids : List α), uids.length ≤ n →
      ∀ w ∈ (batchSlices uids b).dropLast, w.length = b := by
  intro n
  induction n with
  | zero =>
    intro uids h w hw
    have : uids = [] := List.eq_nil_of_length_eq_zero (by omega)
    subst this
    rw [batchSlices_nil b hb] at hw
    cases hw
  | succ n ih =>
    intro uids h w hw
    by_cases huids : uids = []
    · subst huids
      rw [batchSlices_nil b hb] at hw
      cases hw
    · rw [batchSlices_cons b hb uids huids] at hw
      by_cases hrest : batchSlices (uids.drop b) b = []
      · rw [hrest] at hw
        cases hw
      · rw [List.dropLast_cons_of_ne_nil hrest] at hw
        rcases List.mem_cons.mp hw with rfl | hw2
        · have hdrop : uids.drop b ≠ [] := by
            intro hd
            rw [hd, batchSlices_nil b hb] at hrest
            exact hrest rfl
          have hlen : b < uids.length := by
            have := List.length_pos.mpr hdrop
            rw [List.length_drop] at this
            omega
          rw [List.length_take]
          omega
        · exact ih (uids.drop b) (by rw [List.length_drop]; omega) w hw2

theorem get_emails_batch_foldl {γ : Type} (f : String → List EmailMessage)
    (g : γ → List String) :
    ∀ (r : List γ) (acc : List EmailMessage × List String),
      r.foldl (fun acc i => (acc.1 ++ f (joinComma (g i)), acc.2 ++ [joinComma (g i)])) acc
        = (acc.1 ++ (r.map (fun i => f (joinComma (g i)))).flatten,
           acc.2 ++ r.map (fun i => joinComma (g i))) := by
  intro r
  induction r with
  | nil => intro acc; simp
  | cons x xs ih =>
    intro acc
    simp only [List.foldl_cons, List.map_cons, List.flatten_cons, ih]
    simp [List.append_assoc]

theorem get_emails_batch_eq (f : String → List EmailMessage)
    (uids : List String) (b : Nat) :
    get_emails_batch f uids b
      = (((batchSlices uids b).map (fun w => f (joinComma w))).flatten,
         (batchSlices uids b).map joinComma) := by
  unfold get_emails_batch batchSlices
  rw [get_emails_batch_foldl f (fun index => (uids.drop index).take b)]
  simp only [List.map_map, Function.comp_def, List.nil_append]

/-- C1: for every identifier sequence `S` and batch size `b ≥ 1`, the
`get_emails` batching loop partitions `S` into consecutive, non-overlapping
windows (their concatenation is exactly `S`, so no identifier is fetched
twice), every window except possibly the last has exactly `b` elements and
every window is nonempty with at most `b` elements, one `fetch_emails` call is
issued per window with the window's identifiers comma-joined, the per-window
results are concatenated in window order, and — provided each fetch returns at
most one message per requested identifier — the flat result has length at most
`|S|`. -/
theorem get_emails_batch_windows_spec
    (fetch : String → List EmailMessage) (S : List String) (b : Nat) (hb : 1 ≤ b) :
    (batchSlices S b).flatten = S
    ∧ (∀ w ∈ (batchSlices S b).dropLast, w.length = b)
    ∧ (∀ w ∈ batchSlices S b, w.length ≤ b ∧ w ≠ [])
    ∧ (get_emails_batch fetch S b).2 = (batchSlices S b).map joinComma
    ∧ (get_emails_batch fetch S b).1
        = ((batchSlices S b).map (fun w => fetch (joinComma w))).flatten
    ∧ ((∀ w ∈ batchSlices S b, (fetch (joinComma w)).length ≤ w.length) →
        (get_emails_batch fetch S b).1.length ≤ S.length) := by
  refine ⟨batchSlices_flatten b hb S.length S (le_refl _),
          batchSlices_dropLast_full b hb S.length S (le_refl _),
          batchSlices_window_le b hb S.length S (le_refl _),
          ?_, ?_, ?_⟩
  · rw [get_emails_batch_eq]
  · rw [get_emails_batch_eq]
  · intro hfetch
    simp only [get_emails_batch_eq]
    rw [List.length_flatten, List.map_map]
    conv_rhs => rw [← batchSlices_flatten b hb S.length S (le_refl _), List.length_flatten]
    simp only [Function.comp_def]
    exact List.sum_le_sum hfetch

theorem get_emails_batch_windows_spec_witness :
    (1 ≤ 2)
    ∧ ((batchSlices ["5", "6", "7"] 2).flatten = ["5", "6", "7"]
    ∧ (∀ w ∈ (batchSlices ["5", "6", "7"] 2).dropLast, w.length = 2)
    ∧ (∀ w ∈ batchSlices ["5", "6", "7"] 2, w.length ≤ 2 ∧ w ≠ [])
    ∧ (get_emails_batch (fun s => [message_from_bytes s]) ["5", "6", "7"] 2).2
        = (batchSlices ["5", "6", "7"] 2).map joinComma
    ∧ (get_emails_batch (fun s => [message_from_bytes s]) ["5", "6", "7"] 2).1
        = ((batchSlices ["5", "6", "7"] 2).map
            (fun w => (fun s => [message_from_bytes s]) (joinComma w))).flatten
    ∧ ((∀ w ∈ batchSlices ["5", "6", "7"] 2,
          ((fun s => [message_from_bytes s]) (joinComma w)).length ≤ w.length) →
        (get_emails_batch (fun s => [message_from_bytes s]) ["5", "6", "7"] 2).1.length
          ≤ (["5", "6", "7"] : List String).length)) :=
  ⟨by decide,
   get_emails_batch_windows_spec (fun s => [message_from_bytes s]) ["5", "6", "7"] 2 (by decide)⟩

theorem is_logged_cases (beh : ServerBehavior) (st : ClientState) :
    is_logged beh st = (true, [NetOp.noop]) ∨
    is_logged beh st = (false, [NetOp.noop]) ∨
    is_logged beh st = (false, []) := by
  unfold is_logged
  rcases st.imap with _ | ⟨⟨lo⟩⟩
  · right; right; rfl
  · cases lo
    · cases beh.noopOk
      · right; left; rfl
      · left; rfl
    · right; right; rfl

theorem is_logged_trace (beh : ServerBehavior) (st : ClientState) :
    (is_logged beh st).2 = [] ∨ (is_logged beh st).2 = [NetOp.noop] := by
  rcases is_logged_cases beh st with h1 | h1 | h1 <;> rw [h1]
  · right; rfl
  · right; rfl
  · left; rfl

theorem is_logged_true_eq (beh : ServerBehavior) (st : ClientState)
    (h : (is_logged beh st).1 = true) :
    is_logged beh st = (true, [NetOp.noop]) := by
  rcases is_logged_cases beh st with h1 | h1 | h1
  · exact h1
  · rw [h1] at h; exact Bool.noConfusion h
  · rw [h1] at h; exact Bool.noConfusion h

/-- C7: `connect` is idempotent when the session is already authenticated: if
the `is_logged` health probe succeeds, the call returns `None` immediately,
the only wire command is the probe's `NOOP` (no new `IMAP4_SSL` handshake and
no `LOGIN`), and the connection handle — in fact the whole session state — is
unchanged. -/
theorem connect_idempotent_when_logged (beh : ServerBehavior) (st : ClientState)
    (account password : String) (h : (is_logged beh st).1 = true) :
    connect beh st account password = ⟨.ok (), st, [NetOp.noop]⟩ := by
  have h2 := is_logged_true_eq beh st h
  simp only [connect, h2]

theorem connect_idempotent_when_logged_witness :
    (is_logged okBehavior authSt).1 = true
    ∧ connect okBehavior authSt "user" "pw" = ⟨.ok (), authSt, [NetOp.noop]⟩ :=
  ⟨by decide, connect_idempotent_when_logged okBehavior authSt "user" "pw" (by decide)⟩

/-- C10: `move_emails(u, "Deleted")` is behaviorally identical to
`delete_emails(u)` — same result or raised exception (including the shared
precondition `ConnectionError` and the identical `RuntimeError` wrapping),
same post-state, same wire trace — because `f'\\\x7bmailbox\x7d'` with
`mailbox = "Deleted"` is exactly the `'\\Deleted'` flag literal; and on the
success path both issue exactly `store(u, '+FLAGS', '\\Deleted')` followed by
`expunge`. -/
theorem move_deleted_equals_delete (beh : ServerBehavior) (st : ClientState)
    (u : String) :
    move_emails beh st u "Deleted" = delete_emails beh st u
    ∧ (∀ t, is_logged beh st = (true, t) →
        beh.storeRaises u "+FLAGS" "\\Deleted" = none → beh.expungeRaises = none →
        (delete_emails beh st u).trace
          = t ++ [NetOp.store u "+FLAGS" "\\Deleted", NetOp.expunge]) := by
  constructor
  · rfl
  · intro t h h1 h2
    simp only [delete_emails, h, h1, h2]

theorem move_deleted_equals_delete_witness :
    (move_emails okBehavior authSt "5" "Deleted" = delete_emails okBehavior authSt "5"
    ∧ (∀ t, is_logged okBehavior authSt = (true, t) →
        okBehavior.storeRaises "5" "+FLAGS" "\\Deleted" = none →
        okBehavior.expungeRaises = none →
        (delete_emails okBehavior authSt "5").trace
          = t ++ [NetOp.store "5" "+FLAGS" "\\Deleted", NetOp.expunge]))
    ∧ (delete_emails okBehavior authSt "5").trace
        = [NetOp.noop] ++ [NetOp.store "5" "+FLAGS" "\\Deleted", NetOp.expunge] :=
  ⟨move_deleted_equals_delete okBehavior authSt "5",
   (move_deleted_equals_delete okBehavior authSt "5").2 [NetOp.noop] (by decide) rfl rfl⟩

/-- C8: `disconnect` is idempotent.  On a session that is not authenticated
(the `is_logged` gate reports `false`) it is a no-op that raises nothing and
leaves the state unchanged; and from any state whatsoever, a second
`disconnect` immediately after a first one raises no error. -/
theorem disconnect_idempotent (beh : ServerBehavior) (st : ClientState)
    (t : List NetOp) (h : is_logged beh st = (false, t)) :
    disconnect beh st = ⟨.ok (), st, t⟩
    ∧ ∀ st2 : ClientState, (disconnect beh (disconnect beh st2).state).result = .ok () := by
  constructor
  · simp only [disconnect, h]
  · intro st2
    rcases is_logged_cases beh st2 with h1 | h1 | h1
    · have hstate : (disconnect beh st2).state = { st2 with imap := some ⟨true⟩ } := by
        simp only [disconnect, h1]
        rcases beh.logoutRaises with _ | e
        · rfl
        · rfl
      rw [hstate]
      rfl
    · have hstate : (disconnect beh st2).state = st2 := by
        simp only [disconnect, h1]
      rw [hstate]
      simp only [disconnect, h1]
    · have hstate : (disconnect beh st2).state = st2 := by
        simp only [disconnect, h1]
      rw [hstate]
      simp only [disconnect, h1]

theorem disconnect_idempotent_witness :
    is_logged okBehavior freshSt = (false, [])
    ∧ (disconnect okBehavior freshSt = ⟨.ok (), freshSt, []⟩
    ∧ ∀ st2 : ClientState,
        (disconnect okBehavior (disconnect okBehavior st2).state).result = .ok ()) :=
  ⟨rfl, disconnect_idempotent okBehavior freshSt [] rfl⟩

/-- C9 counterexample: on an authenticated session with a cooperative server,
`disconnect` succeeds and sends `LOGOUT`, yet afterwards the session still
holds the connection handle — `self.__imap` is never reset to `None` by the
method. -/
theorem disconnect_retains_handle_counterexample :
    (disconnect okBehavior authSt).result = .ok ()
    ∧ (disconnect okBehavior authSt).trace = [NetOp.noop, NetOp.logout]
    ∧ (disconnect okBehavior authSt).state.imap ≠ none := by
  refine ⟨rfl, rfl, ?_⟩
  intro hcontra
  exact Option.noConfusion hcontra

/-- C9 (amended): on an authenticated session a successful `disconnect` sends
`LOGOUT` and returns normally, after which the handle is in the logged-out
state — but the session still holds the handle object: `self.__imap` is not
cleared. -/
theorem disconnect_logout_retains_handle (beh : ServerBehavior) (st : ClientState)
    (t : List NetOp) (h : is_logged beh st = (true, t))
    (hlo : beh.logoutRaises = none) :
    disconnect beh st = ⟨.ok (), { st with imap := some ⟨true⟩ }, t ++ [NetOp.logout]⟩ := by
  simp only [disconnect, h, hlo]

theorem disconnect_logout_retains_handle_witness :
    is_logged okBehavior authSt = (true, [NetOp.noop])
    ∧ okBehavior.logoutRaises = none
    ∧ disconnect okBehavior authSt
        = ⟨.ok (), { authSt with imap := some ⟨true⟩ }, [NetOp.noop] ++ [NetOp.logout]⟩ :=
  ⟨rfl, rfl, disconnect_logout_retains_handle okBehavior authSt [NetOp.noop] rfl rfl⟩

theorem move_emails_trace_cases (beh : ServerBehavior) (st : ClientState)
    (t : List NetOp) (h : is_logged beh st = (true, t)) (uids mailbox : String) :
    (move_emails beh st uids mailbox).trace
        = t ++ [NetOp.store uids "+FLAGS" ("\\" ++ mailbox)]
    ∨ (move_emails beh st uids mailbox).trace
        = t ++ [NetOp.store uids "+FLAGS" ("\\" ++ mailbox), NetOp.expunge] := by
  simp only [move_emails, h]
  rcases beh.storeRaises uids "+FLAGS" ("\\" ++ mailbox) with _ | e
  · rcases beh.expungeRaises with _ | e2
    · right; rfl
    · right; rfl
  · left; rfl

/-- C6: `move_emails(uids, mailbox)` on an authenticated session issues
`store(uids, '+FLAGS', '\\' + mailbox)` — splicing the *target mailbox name*
into a flag literal — followed by `expunge`; it never issues the real IMAP
`COPY`/`MOVE` command, so no cross-mailbox relocation happens at the protocol
level. -/
theorem move_emails_pseudo_move (beh : ServerBehavior) (st : ClientState)
    (t : List NetOp) (h : is_logged beh st = (true, t)) (uids mailbox : String) :
    (beh.storeRaises uids "+FLAGS" ("\\" ++ mailbox) = none → beh.expungeRaises = none →
      move_emails beh st uids mailbox
        = ⟨.ok (), st, t ++ [NetOp.store uids "+FLAGS" ("\\" ++ mailbox), NetOp.expunge]⟩)
    ∧ (∀ u m, NetOp.copy u m ∉ (move_emails beh st uids mailbox).trace) := by
  have ht : t = [] ∨ t = [NetOp.noop] := by
    have h2 := is_logged_trace beh st
    rw [h] at h2
    exact h2
  constructor
  · intro h1 h2
    simp only [move_emails, h, h1, h2]
  · intro u m hmem
    rcases move_emails_trace_cases beh st t h uids mailbox with h1 | h1 <;>
      rw [h1] at hmem <;>
      rcases List.mem_append.mp hmem with h2 | h2 <;>
      rcases ht with rfl | rfl <;>
      simp at h2

theorem move_emails_pseudo_move_witness :
    is_logged okBehavior authSt = (true, [NetOp.noop])
    ∧ ((okBehavior.storeRaises "7" "+FLAGS" ("\\" ++ "Archive") = none →
        okBehavior.expungeRaises = none →
        move_emails okBehavior authSt "7" "Archive"
          = ⟨.ok (), authSt,
             [NetOp.noop] ++ [NetOp.store "7" "+FLAGS" ("\\" ++ "Archive"), NetOp.expunge]⟩)
    ∧ (∀ u m, NetOp.copy u m ∉ (move_emails okBehavior authSt "7" "Archive").trace)) :=
  ⟨rfl, move_emails_pseudo_move okBehavior authSt [NetOp.noop] rfl "7" "Archive"⟩

/-- C2 counterexample: a session whose handle is live but whose `NOOP` health
probe fails (e.g. the connection broke) is not authenticated — the operation
does fail with `ConnectionError` — yet the call is *not* free of network I/O:
the probe `NOOP` was attempted on the wire. -/
theorem non_authenticated_probe_io_counterexample :
    (is_logged badNoopBehavior authSt).1 = false
    ∧ (select_mailbox badNoopBehavior authSt "INBOX").result
        = .error (.connectionError "Not connected to IMAP server")
    ∧ (select_mailbox badNoopBehavior authSt "INBOX").trace = [NetOp.noop]
    ∧ (select_mailbox badNoopBehavior authSt "INBOX").trace ≠ [] := by
  refine ⟨rfl, rfl, rfl, ?_⟩
  intro hcontra
  exact List.noConfusion hcontra

/-- C2 (amended): every mailbox/search/fetch/mutation operation called on a
non-authenticated session fails with `ConnectionError` and issues no
operation-specific wire command — the only possible network I/O is the single
`NOOP` health probe of the `is_logged` gate, and there is none at all when no
live handle exists. -/
theorem non_authenticated_ops_fail (beh : ServerBehavior) (st : ClientState)
    (t : List NetOp) (h : is_logged beh st = (false, t))
    (mb criteria uids target d p om nm cm dm : String) :
    (t = [] ∨ t = [NetOp.noop])
    ∧ select_mailbox beh st mb
        = ⟨.error (.connectionError "Not connected to IMAP server"), st, t⟩
    ∧ search_emails beh st criteria
        = ⟨.error (.connectionError "Not connected to IMAP server"), st, t⟩
    ∧ fetch_emails beh st uids
        = ⟨.error (.connectionError "Not connected to IMAP server"), st, t⟩
    ∧ delete_emails beh st uids
        = ⟨.error (.connectionError "Not connected to IMAP server"), st, t⟩
    ∧ move_emails beh st uids target
        = ⟨.error (.connectionError "Not connected to IMAP server"), st, t⟩
    ∧ list_mailboxes beh st d p
        = ⟨.error (.connectionError "Not connected to IMAP server"), st, t⟩
    ∧ new_mailbox beh st cm
        = ⟨.error (.connectionError "Not connected to IMAP server"), st, t⟩
    ∧ rename_mailbox beh st om nm
        = ⟨.error (.connectionError "Not connected to IMAP server"), st, t⟩
    ∧ delete_mailbox beh st dm
        = ⟨.error (.connectionError "Not connected to IMAP server"), st, t⟩ := by
  refine ⟨?_, ?_, ?_, ?_, ?_, ?_, ?_, ?_, ?_, ?_⟩
  · have h2 := is_logged_trace beh st
    rw [h] at h2
    exact h2
  · simp only [select_mailbox, h]
  · simp only [search_emails, h]
  · simp only [fetch_emails, h]
  · simp only [delete_emails, h]
  · simp only [move_emails, h]
  · simp only [list_mailboxes, h]
  · simp only [new_mailbox, h]
  · simp only [rename_mailbox, h]
  · simp only [delete_mailbox, h]

theorem non_authenticated_ops_fail_witness :
    is_logged okBehavior freshSt = (false, [])
    ∧ (([] = ([] : List NetOp) ∨ [] = [NetOp.noop])
    ∧ select_mailbox okBehavior freshSt "INBOX"
        = ⟨.error (.connectionError "Not connected to IMAP server"), freshSt, []⟩
    ∧ search_emails okBehavior freshSt "ALL"
        = ⟨.error (.connectionError "Not connected to IMAP server"), freshSt, []⟩
    ∧ fetch_emails okBehavior freshSt "1,2"
        = ⟨.error (.connectionError "Not connected to IMAP server"), freshSt, []⟩
    ∧ delete_emails okBehavior freshSt "1,2"
        = ⟨.error (.connectionError "Not connected to IMAP server"), freshSt, []⟩
    ∧ move_emails okBehavior freshSt "1,2" "Trash"
        = ⟨.error (.connectionError "Not connected to IMAP server"), freshSt, []⟩
    ∧ list_mailboxes okBehavior freshSt "" "*"
        = ⟨.error (.connectionError "Not connected to IMAP server"), freshSt, []⟩
    ∧ new_mailbox okBehavior freshSt "Archive"
        = ⟨.error (.connectionError "Not connected to IMAP server"), freshSt, []⟩
    ∧ rename_mailbox okBehavior freshSt "Old" "New"
        = ⟨.error (.connectionError "Not connected to IMAP server"), freshSt, []⟩
    ∧ delete_mailbox okBehavior freshSt "Old"
        = ⟨.error (.connectionError "Not connected to IMAP server"), freshSt, []⟩) :=
  ⟨rfl, non_authenticated_ops_fail okBehavior freshSt [] rfl
          "INBOX" "ALL" "1,2" "Trash" "" "*" "Old" "New" "Archive" "Old"⟩

/-- C3: on an authenticated session, `search_emails`, `fetch_emails` and
`list_mailboxes` return `.ok []` and raise nothing when the server replies
with a clean non-`"OK"` status, while a thrown transport/protocol exception
surfaces as a `RuntimeError` wrapping the cause. -/
theorem silent_empty_policy (beh : ServerBehavior) (st : ClientState)
    (t : List NetOp) (h : is_logged beh st = (true, t))
    (criteria uids d p : String) :
    (∀ status data, beh.searchResp criteria = .ok (status, data) → status ≠ "OK" →
        (search_emails beh st criteria).result = .ok [])
    ∧ (∀ e, beh.searchResp criteria = .error e →
        (search_emails beh st criteria).result
          = .error (.runtimeError ("Error searching emails: " ++ e.msg)))
    ∧ (∀ status data, beh.fetchResp uids = .ok (status, data) → status ≠ "OK" →
        (fetch_emails beh st uids).result = .ok [])
    ∧ (∀ e, beh.fetchResp uids = .error e →
        (fetch_emails beh st uids).result
          = .error (.runtimeError ("Error fetching email UIDs " ++ uids ++ ": " ++ e.msg)))
    ∧ (∀ status data, beh.listResp d p = .ok (status, data) → status ≠ "OK" →
        (list_mailboxes beh st d p).result = .ok [])
    ∧ (∀ e, beh.listResp d p = .error e →
        (list_mailboxes beh st d p).result
          = .error (.runtimeError ("Error retrieving mailboxes: " ++ e.msg))) := by
  refine ⟨?_, ?_, ?_, ?_, ?_, ?_⟩
  · intro status data hresp hstatus
    simp only [search_emails, h, hresp]
    rw [if_neg hstatus]
  · intro e hresp
    simp only [search_emails, h, hresp]
  · intro status data hresp hstatus
    simp only [fetch_emails, h, hresp]
    rw [if_neg hstatus]
  · intro e hresp
    simp only [fetch_emails, h, hresp]
  · intro status data hresp hstatus
    simp only [list_mailboxes, h, hresp]
    rw [if_neg hstatus]
  · intro e hresp
    simp only [list_mailboxes, h, hresp]

theorem silent_empty_policy_witness :
    is_logged noStatusBehavior authSt = (true, [NetOp.noop])
    ∧ ((∀ status data, noStatusBehavior.searchResp "ALL" = .ok (status, data) →
          status ≠ "OK" → (search_emails noStatusBehavior authSt "ALL").result = .ok [])
    ∧ (∀ e, noStatusBehavior.searchResp "ALL" = .error e →
        (search_emails noStatusBehavior authSt "ALL").result
          = .error (.runtimeError ("Error searching emails: " ++ e.msg)))
    ∧ (∀ status data, noStatusBehavior.fetchResp "1,2" = .ok (status, data) →
          status ≠ "OK" → (fetch_emails noStatusBehavior authSt "1,2").result = .ok [])
    ∧ (∀ e, noStatusBehavior.fetchResp "1,2" = .error e →
        (fetch_emails noStatusBehavior authSt "1,2").result
          = .error (.runtimeError ("Error fetching email UIDs " ++ "1,2" ++ ": " ++ e.msg)))
    ∧ (∀ status data, noStatusBehavior.listResp "" "*" = .ok (status, data) →
          status ≠ "OK" → (list_mailboxes noStatusBehavior authSt "" "*").result = .ok [])
    ∧ (∀ e, noStatusBehavior.listResp "" "*" = .error e →
        (list_mailboxes noStatusBehavior authSt "" "*").result
          = .error (.runtimeError ("Error retrieving mailboxes: " ++ e.msg)))) :=
  ⟨rfl, silent_empty_policy noStatusBehavior authSt [NetOp.noop] rfl "ALL" "1,2" "" "*"⟩

/-- C4 counterexample: when DNS resolution fails inside the `IMAP4_SSL`
constructor (a network-level failure raising `socket.gaierror`, which is not
an `IMAP4.error`), `connect` does *not* fail with `ConnectionError`: the
exception propagates unwrapped, because the method catches only
`(IMAP4.error, IMAP4_SSL.error)`. -/
theorem connect_unwrapped_network_error_counterexample :
    (connect dnsFailBehavior freshSt "user" "pw").result
      = .error (.uncaught (.otherExc "gaierror: Name or service not known"))
    ∧ resultIsConnectionError (connect dnsFailBehavior freshSt "user" "pw") = false := by
  exact ⟨rfl, rfl⟩

/-- C4 (amended): a failure raised as `IMAP4.error` during connection
establishment or authentication (the protocol/authentication failures) is
wrapped by `connect` in `ConnectionError`; any other exception — network-level
failures such as DNS or TLS errors from the socket layer — propagates
unwrapped. -/
theorem connect_imap_error_wrapped (beh : ServerBehavior) (st : ClientState)
    (t : List NetOp) (h : is_logged beh st = (false, t)) (account password : String) :
    (∀ m, beh.newConnRaises = some (.imapErr m) →
      (connect beh st account password).result
        = .error (.connectionError ("Failed to connect to IMAP server: " ++ m)))
    ∧ (∀ m, beh.newConnRaises = none → beh.loginRaises account password = some (.imapErr m) →
      (connect beh st account password).result
        = .error (.connectionError ("Failed to connect to IMAP server: " ++ m)))
    ∧ (∀ m, beh.newConnRaises = some (.otherExc m) →
      (connect beh st account password).result = .error (.uncaught (.otherExc m)))
    ∧ (∀ m, beh.newConnRaises = none → beh.loginRaises account password = some (.otherExc m) →
      (connect beh st account password).result = .error (.uncaught (.otherExc m))) := by
  refine ⟨?_, ?_, ?_, ?_⟩
  · intro m hconn
    simp only [connect, h, hconn]
  · intro m hconn hlogin
    simp only [connect, h, hconn, hlogin]
  · intro m hconn
    simp only [connect, h, hconn]
  · intro m hconn hlogin
    simp only [connect, h, hconn, hlogin]

theorem connect_imap_error_wrapped_witness :
    is_logged loginFailBehavior freshSt = (false, [])
    ∧ ((∀ m, loginFailBehavior.newConnRaises = some (.imapErr m) →
        (connect loginFailBehavior freshSt "user" "pw").result
          = .error (.connectionError ("Failed to connect to IMAP server: " ++ m)))
    ∧ (∀ m, loginFailBehavior.newConnRaises = none →
        loginFailBehavior.loginRaises "user" "pw" = some (.imapErr m) →
        (connect loginFailBehavior freshSt "user" "pw").result
          = .error (.connectionError ("Failed to connect to IMAP server: " ++ m)))
    ∧ (∀ m, loginFailBehavior.newConnRaises = some (.otherExc m) →
        (connect loginFailBehavior freshSt "user" "pw").result
          = .error (.uncaught (.otherExc m)))
    ∧ (∀ m, loginFailBehavior.newConnRaises = none →
        loginFailBehavior.loginRaises "user" "pw" = some (.otherExc m) →
        (connect loginFailBehavior freshSt "user" "pw").result
          = .error (.uncaught (.otherExc m)))) :=
  ⟨rfl, connect_imap_error_wrapped loginFailBehavior freshSt [] rfl "user" "pw"⟩

/-- C5 counterexample: against a server listing `(\HasNoChildren) "/" "INBOX"`
and `(\HasNoChildren) "/" "Sent"`, `list_mailboxes` does not return the plain
names `["INBOX", "Sent"]`: `split(' "/" ')[1]` keeps the surrounding double
quotes, so the call returns `["\"INBOX\"", "\"Sent\""]`. -/
theorem list_mailboxes_quoted_names_counterexample :
    (list_mailboxes okBehavior authSt "" "*").result
      = .ok ["\"INBOX\"", "\"Sent\""]
    ∧ (list_mailboxes okBehavior authSt "" "*").result ≠ .ok ["INBOX", "Sent"] := by
  constructor
  · rfl
  · decide

/-- C5 (amended): on an authenticated session, when the server replies OK with
the listing lines `(\HasNoChildren) "/" "INBOX"` and
`(\HasNoChildren) "/" "Sent"`, `list_mailboxes` returns exactly
`["\"INBOX\"", "\"Sent\""]` — the name fields still wrapped in their original
double quotes, as extracted after the quoted delimiter. -/
theorem list_mailboxes_returns_quoted_names (beh : ServerBehavior)
    (st : ClientState) (t : List NetOp) (h : is_logged beh st = (true, t))
    (d p : String)
    (hresp : beh.listResp d p = .ok ("OK",
      ["(\\HasNoChildren) \"/\" \"INBOX\"", "(\\HasNoChildren) \"/\" \"Sent\""])) :
    (list_mailboxes beh st d p).result = .ok ["\"INBOX\"", "\"Sent\""] := by
  simp only [list_mailboxes, h, hresp]
  rfl

theorem list_mailboxes_returns_quoted_names_witness :
    is_logged okBehavior authSt = (true, [NetOp.noop])
    ∧ okBehavior.listResp "" "*" = .ok ("OK",
        ["(\\HasNoChildren) \"/\" \"INBOX\"", "(\\HasNoChildren) \"/\" \"Sent\""])
    ∧ (list_mailboxes okBehavior authSt "" "*").result = .ok ["\"INBOX\"", "\"Sent\""] :=
  ⟨rfl, rfl, list_mailboxes_returns_quoted_names okBehavior authSt [NetOp.noop] rfl "" "*" rfl⟩
